import Mathlib

/-!
Shallow embedding of the prediction validation and backtesting engine of the
Sup-Ai repository, together with theorems settling the frozen claims about it.

Sources embedded:
  * `bidirectional_ml_backtester.py` — class `BidirectionalBacktester`:
    `determine_trade_direction`, `calculate_target_price`,
    `evaluate_trade_outcome` and the trading parameters set in `__init__`.
  * `src/paper_trading_validator.py` — class `PaperTradingValidator`:
    `validation_periods`, `profit_thresholds`, `categorize_profit`,
    `validate_trade_at_period`, `validate_predictions`,
    `load_active_paper_trades`.

Modelling conventions:
  * Prices, percentages and confidences are rationals (`ℚ`); the Python
    floats are modelled exactly, so every threshold constant is the exact
    rational of the decimal literal in the source.
  * Timestamps are integers counted in minutes (`ℤ`), so
    `timedelta(minutes=m)` becomes `+ m`.
  * Python float division raises `ZeroDivisionError` on a zero divisor
    (also for floats); fallible arithmetic is modelled in the `Option`
    monad via `pydiv`, and a function whose Python body can raise inside a
    `try`/`except` handler that logs and returns (writing no row) is
    modelled as returning `none` in that case.
  * `np.random.uniform(lo, hi)` is modelled by an explicit draw function
    argument `draw : ℚ → ℚ → ℚ`; theorems assume only what the library
    guarantees, `lo ≤ draw lo hi < hi`.
  * Directions and statuses are the literal Python strings
    ("LONG"/"SHORT"/"NEUTRAL", "ACTIVE"/"COMPLETED"/"NO_DATA"), since the
    source compares strings.
-/

/-- `self.break_even_pct = 0.001` in `BidirectionalBacktester.__init__`. -/
def break_even_pct : ℚ := 1/1000

/-- `self.min_profit_pct = 0.0012` in `BidirectionalBacktester.__init__`. -/
def min_profit_pct : ℚ := 3/2500

/-- `self.max_position_minutes = 10` in `BidirectionalBacktester.__init__`. -/
def max_position_minutes : ℤ := 10

/-- `self.long_ratio_threshold = 1.25`. -/
def long_ratio_threshold : ℚ := 5/4

/-- `self.short_ratio_threshold = 0.9`. -/
def short_ratio_threshold : ℚ := 9/10

/-- `self.short_strong_threshold = 0.8`. -/
def short_strong_threshold : ℚ := 4/5

/-- One OHLCV bar of the historical price series (a row of the
`price_data` DataFrame indexed by its timestamp). -/
structure Bar where
  timestamp : ℤ
  open_price : ℚ
  high_price : ℚ
  low_price : ℚ
  close_price : ℚ
deriving DecidableEq

/-- The fields of the trade dict consumed by `evaluate_trade_outcome`. -/
structure Trade where
  direction : String
  entry_time : ℤ
  entry_price : ℚ
  target_price : ℚ
deriving DecidableEq

/-- The outcome fields written by `trade.update(...)` in
`evaluate_trade_outcome`.  The `NO_DATA` branch of the source does not set
the `success` key, hence `success : Option Bool`. -/
structure Outcome where
  status : String
  exit_price : ℚ
  exit_time : ℤ
  profit_pct : ℚ
  hit_target : Bool
  success : Option Bool
  duration_minutes : ℚ
deriving DecidableEq

/-- `BidirectionalBacktester.determine_trade_direction` (source lines
121–139): ordered threshold checks on the PSC ratio; momentum and
volatility are parameters the body never reads. -/
def determine_trade_direction (psc_ratio price_momentum volatility : ℚ) : String :=
  if psc_ratio ≥ 2 then "LONG"
  else if psc_ratio ≥ 3/2 then "LONG"
  else if psc_ratio ≥ long_ratio_threshold then "LONG"
  else if psc_ratio ≤ short_strong_threshold then "SHORT"
  else if psc_ratio ≤ short_ratio_threshold then "SHORT"
  else "NEUTRAL"

/-- The `target_pct` sampled in `calculate_target_price` (lines 146–151):
a banded draw from `np.random.uniform`, the draw function being passed
explicitly. -/
def sampled_target_pct (confidence : ℚ) (draw : ℚ → ℚ → ℚ) : ℚ :=
  if confidence ≥ 4/5 then draw (3/2000) (1/500)
  else if confidence ≥ 3/5 then draw (13/10000) (3/2000)
  else draw (3/2500) (13/10000)

/-- `BidirectionalBacktester.calculate_target_price` (lines 141–156). -/
def calculate_target_price (entry_price : ℚ) (direction : String) (confidence : ℚ)
    (draw : ℚ → ℚ → ℚ) : ℚ :=
  let target_pct := sampled_target_pct confidence draw
  if direction = "LONG" then entry_price * (1 + target_pct)
  else entry_price * (1 - target_pct)

/-- The filter predicate of lines 196–199: bar timestamp within
`[entry_time, entry_time + max_position_minutes]`, both ends inclusive. -/
def in_window (trade : Trade) (b : Bar) : Bool :=
  decide (trade.entry_time ≤ b.timestamp) &&
  decide (b.timestamp ≤ trade.entry_time + max_position_minutes)

/-- The target-hit test of lines 213–228: for LONG the bar's high reaches
the target, otherwise (SHORT) the bar's low reaches it. -/
def crosses_target (trade : Trade) (b : Bar) : Bool :=
  if trade.direction = "LONG" then decide (trade.target_price ≤ b.high_price)
  else decide (b.low_price ≤ trade.target_price)

/-- Lines 230–248 of `evaluate_trade_outcome`: profit, success and
duration computed from the chosen exit, then written into the record. -/
def mkCompleted (trade : Trade) (exit_price : ℚ) (exit_time_actual : ℤ)
    (target_hit : Bool) : Outcome :=
  let profit_pct :=
    if trade.direction = "LONG" then (exit_price - trade.entry_price) / trade.entry_price
    else (trade.entry_price - exit_price) / trade.entry_price
  { status := "COMPLETED"
    exit_price := exit_price
    exit_time := exit_time_actual
    profit_pct := profit_pct
    hit_target := target_hit
    success := some (decide (profit_pct > min_profit_pct))
    duration_minutes := ((exit_time_actual - trade.entry_time : ℤ) : ℚ) }

/-- `BidirectionalBacktester.evaluate_trade_outcome` (lines 183–250):
restrict the path to the position window; empty window is `NO_DATA`;
otherwise exit at the target on the first bar whose favorable extreme
crosses it, or at the last bar's close. -/
def evaluate_trade_outcome (trade : Trade) (price_data : List Bar) : Outcome :=
  let position_data := price_data.filter (in_window trade)
  if h : position_data = [] then
    { status := "NO_DATA"
      exit_price := trade.entry_price
      exit_time := trade.entry_time
      profit_pct := 0
      hit_target := false
      success := none
      duration_minutes := 0 }
  else
    match position_data.find? (crosses_target trade) with
    | some b => mkCompleted trade trade.target_price b.timestamp true
    | none =>
        mkCompleted trade (position_data.getLast h).close_price
          (position_data.getLast h).timestamp false

/-- A validation period dict `{'name': ..., 'minutes': ...}`. -/
structure Period where
  period_label : String
  minutes : ℤ
deriving DecidableEq

/-- `self.validation_periods` in `PaperTradingValidator.__init__`. -/
def validation_periods : List Period :=
  [⟨"5min", 5⟩, ⟨"10min", 10⟩, ⟨"15min", 15⟩, ⟨"30min", 30⟩]

/-- Python's `max(periods, key=lambda x: x['minutes'])`: first element of
maximal key (ties keep the earlier element). Python raises on an empty
list; the embedding is only ever applied to the non-empty
`validation_periods`. -/
def max_by_minutes : List Period → Period
  | [] => ⟨"", 0⟩
  | p :: ps => ps.foldl (fun acc q => if q.minutes > acc.minutes then q else acc) p

/-- `self.profit_thresholds['break_even'] = 0.001`. -/
def thr_break_even : ℚ := 1/1000

/-- `self.profit_thresholds['min_profit'] = 0.0012`. -/
def thr_min_profit : ℚ := 3/2500

/-- `self.profit_thresholds['good_profit'] = 0.002`. -/
def thr_good_profit : ℚ := 1/500

/-- `self.profit_thresholds['excellent'] = 0.005`. -/
def thr_excellent : ℚ := 1/200

/-- An active paper trade dict as built by `start_paper_trade` /
`load_active_paper_trades` (the fields the validation pass reads). -/
structure PaperTrade where
  prediction_id : String
  coin : String
  direction : String
  entry_time : ℤ
  entry_price : ℚ
  target_price : ℚ
  confidence : ℚ
  status : String
deriving DecidableEq

/-- One row appended to `prediction_validation.csv` by
`validate_trade_at_period` (the computed fields; the wall-clock
`exit_time` column and the constant ML-value placeholder are not
modelled). -/
structure ValidationRow where
  prediction_id : String
  coin : String
  direction : String
  entry_time : ℤ
  entry_price : ℚ
  confidence : ℚ
  period_name : String
  exit_price : ℚ
  actual_profit_pct : ℚ
  target_hit : Bool
  success : Bool
  prediction_accuracy : ℚ
  profit_category : String
deriving DecidableEq

/-- Python float division: raises `ZeroDivisionError` when the divisor is
zero (true for Python floats as well as ints), modelled as `none`. -/
def pydiv (a b : ℚ) : Option ℚ :=
  if b = 0 then none else some (a / b)

/-- Python's builtin `abs` on a float. -/
def pyabs (a : ℚ) : ℚ := if a < 0 then -a else a

/-- Python's builtin two-argument `max` on floats. -/
def pymax (a b : ℚ) : ℚ := if a < b then b else a

/-- `PaperTradingValidator.categorize_profit` (lines 295–306). -/
def categorize_profit (profit_pct : ℚ) : String :=
  if profit_pct ≥ thr_excellent then "EXCELLENT"
  else if profit_pct ≥ thr_good_profit then "GOOD"
  else if profit_pct ≥ thr_min_profit then "PROFITABLE"
  else if profit_pct ≥ thr_break_even then "BREAK_EVEN"
  else "LOSS"

/-- `PaperTradingValidator.validate_trade_at_period` (lines 221–274).
The externally fetched price is passed as `fetched` (`none` models
`get_current_price` returning `None`, upon which the method returns
without writing). Every division is `pydiv`; a `ZeroDivisionError` is
swallowed by the method's own `except` handler, so the method writes no
row: both paths yield `none`. A `some` result is the one row appended to
the validation-results CSV. -/
def validate_trade_at_period (trade : PaperTrade) (period : Period)
    (fetched : Option ℚ) : Option ValidationRow :=
  match fetched with
  | none => none
  | some current_price =>
    (if trade.direction = "LONG" then
        pydiv (current_price - trade.entry_price) trade.entry_price
      else
        pydiv (trade.entry_price - current_price) trade.entry_price).bind
    fun actual_profit_pct =>
      let target_hit :=
        if trade.direction = "LONG" then decide (current_price ≥ trade.target_price)
        else decide (current_price ≤ trade.target_price)
      let success := decide (actual_profit_pct ≥ thr_min_profit)
      let profit_category := categorize_profit actual_profit_pct
      (pydiv (pyabs (trade.target_price - trade.entry_price)) trade.entry_price).bind
      fun expected_profit =>
        (pydiv (pyabs (expected_profit - actual_profit_pct)) expected_profit).bind
        fun rel_err =>
          some
            { prediction_id := trade.prediction_id
              coin := trade.coin
              direction := trade.direction
              entry_time := trade.entry_time
              entry_price := trade.entry_price
              confidence := trade.confidence
              period_name := period.period_label
              exit_price := current_price
              actual_profit_pct := actual_profit_pct
              target_hit := target_hit
              success := success
              prediction_accuracy := pymax 0 (1 - rel_err)
              profit_category := profit_category }

/-- The inner loop of `validate_predictions` (lines 198–203) for one
trade: for every period whose deadline has passed, attempt a validation.
`fetch` models `get_current_price` per call. -/
def rows_for_trade (current_time : ℤ) (fetch : PaperTrade → Period → Option ℚ)
    (t : PaperTrade) : List ValidationRow :=
  validation_periods.filterMap fun p =>
    if current_time ≥ t.entry_time + p.minutes then
      validate_trade_at_period t p (fetch t p)
    else none

/-- The effect of one `validate_predictions` pass: the surviving active
set, the trades marked COMPLETED and removed, and the rows written. -/
structure VPResult where
  new_active : List PaperTrade
  completed : List PaperTrade
  rows : List ValidationRow
deriving DecidableEq

/-- `PaperTradingValidator.validate_predictions` (lines 183–219): scan
the active list, validating every elapsed period of every trade; during
the scan collect in `trades_to_remove` each trade whose maximum-period
deadline has passed, and only after the iteration set its status to
COMPLETED and remove it from the active list. -/
def validate_predictions (current_time : ℤ)
    (fetch : PaperTrade → Period → Option ℚ)
    (active : List PaperTrade) : VPResult :=
  let max_minutes := (max_by_minutes validation_periods).minutes
  let rows := (active.map (rows_for_trade current_time fetch)).flatten
  let trades_to_remove :=
    active.filter fun t => decide (current_time ≥ t.entry_time + max_minutes)
  { new_active :=
      active.filter fun t => !decide (current_time ≥ t.entry_time + max_minutes)
    completed := trades_to_remove.map fun t => { t with status := "COMPLETED" }
    rows := rows }

/-- One row of `paper_trades.csv` as seen by `load_active_paper_trades`:
string fields are kept, and a field whose Python parse
(`datetime.fromisoformat` / `float`) would raise is modelled as `none`. -/
structure CsvRow where
  prediction_id : String
  coin : String
  direction : String
  entry_time : Option ℤ
  entry_price : Option ℚ
  target_price : Option ℚ
  confidence : Option ℚ
  status : String
deriving DecidableEq

/-- The body of the row loop of `load_active_paper_trades` (lines
316–334) for one row: `.error ()` models an exception escaping the loop
(unparseable `entry_time`, or an unparseable numeric field of a row that
is ACTIVE and still within the window); `.ok none` a row silently not
restored; `.ok (some t)` a restored trade. Field-access order follows the
source: the status check comes first, then the `entry_time` parse, then
the window check, and the numeric parses only inside the window. -/
def parse_row (current_time : ℤ) (row : CsvRow) : Except Unit (Option PaperTrade) :=
  if row.status = "ACTIVE" then
    match row.entry_time with
    | none => .error ()
    | some et =>
      if current_time < et + (max_by_minutes validation_periods).minutes then
        match row.entry_price, row.target_price, row.confidence with
        | some ep, some tp, some c =>
            .ok (some
              { prediction_id := row.prediction_id
                coin := row.coin
                direction := row.direction
                entry_time := et
                entry_price := ep
                target_price := tp
                confidence := c
                status := "ACTIVE" })
        | _, _, _ => .error ()
      else .ok none
  else .ok none

/-- `PaperTradingValidator.load_active_paper_trades` (lines 308–339). The
whole row loop sits inside one `try`/`except`: an exception on any row
aborts the loop (keeping the trades appended so far, logging an error and
returning), so the remainder of the file contributes nothing. -/
def load_active_paper_trades (current_time : ℤ) : List CsvRow → List PaperTrade
  | [] => []
  | row :: rest =>
    match parse_row current_time row with
    | .error _ => []
    | .ok none => load_active_paper_trades current_time rest
    | .ok (some t) => t :: load_active_paper_trades current_time rest

/-- A concrete admissible draw (midpoint of the band) for the C6 witness. -/
def c6_draw : ℚ → ℚ → ℚ := fun lo hi => (lo + hi) / 2

/-- A live paper trade whose profit at the polled price is exactly the
minimum-profit threshold 0.0012: entry 10000, polled price 10012. -/
def c2_trade_live : PaperTrade := ⟨"id1", "BTC", "LONG", 0, 10000, 10015, 1/2, "ACTIVE"⟩

/-- The validation row the live path writes for `c2_trade_live` at the
5-minute horizon when the polled price is 10012. -/
def c2_row : ValidationRow :=
  ⟨"id1", "BTC", "LONG", 0, 10000, 1/2, "5min", 10012, 3/2500, false, true, 4/5, "PROFITABLE"⟩

/-- A live paper trade whose target equals its entry price. -/
def c10_trade : PaperTrade := ⟨"id2", "ETH", "LONG", 0, 100, 100, 1/2, "ACTIVE"⟩

/-- A paper trade entered at minute 0, used for the C7 witness. -/
def c7_trade : PaperTrade := ⟨"p7", "BTC", "LONG", 0, 100, 101, 1/2, "ACTIVE"⟩

/-- The restoration rule as the specification states it: a fully
well-formed persisted row is restored iff its status is ACTIVE and the
current time is strictly before its entry time plus the maximum
30-minute horizon. Written from the spec's words, to be compared with the
source-translated `load_active_paper_trades`. -/
def restores_row_spec (current_time : ℤ) (row : CsvRow) : Option PaperTrade :=
  match row.entry_time, row.entry_price, row.target_price, row.confidence with
  | some et, some ep, some tp, some c =>
    if row.status = "ACTIVE" ∧ current_time < et + 30 then
      some ⟨row.prediction_id, row.coin, row.direction, et, ep, tp, c, "ACTIVE"⟩
    else none
  | _, _, _, _ => none

/-- A persisted ACTIVE row still inside its validation window at time 5. -/
def c8_row_live : CsvRow := ⟨"live", "BTC", "LONG", some 0, some 100, some 101, some 1, "ACTIVE"⟩

/-- A persisted ACTIVE row whose final horizon deadline (minute -70) is
long past at time 5. -/
def c8_row_expired : CsvRow :=
  ⟨"old", "ETH", "SHORT", some (-100), some 100, some 99, some 1, "ACTIVE"⟩

/-- A malformed persisted row: status ACTIVE but its `entry_time` cannot
be parsed, so `datetime.fromisoformat` raises. -/
def c9_bad : CsvRow := ⟨"bad", "BTC", "LONG", none, some 100, some 101, some 1, "ACTIVE"⟩

/-- A well-formed ACTIVE row inside its validation window at time 1. -/
def c9_good : CsvRow := ⟨"good", "ETH", "LONG", some 0, some 100, some 101, some 1, "ACTIVE"⟩

/-- The trade restored from `c9_good`. -/
def c9_good_trade : PaperTrade := ⟨"good", "ETH", "LONG", 0, 100, 101, 1, "ACTIVE"⟩

/-- An active paper trade entered at minute 0 for the C3 scenario. -/
def c3_trade : PaperTrade := ⟨"p3", "BTC", "LONG", 0, 10000, 10015, 1/2, "ACTIVE"⟩

/-- A price fetch that always returns 10012. -/
def c3_fetch : PaperTrade → Period → Option ℚ := fun _ _ => some 10012

/-- The 5-minute row written for `c3_trade` when the polled price is
10012. -/
def c3_row : ValidationRow :=
  ⟨"p3", "BTC", "LONG", 0, 10000, 1/2, "5min", 10012, 3/2500, false, true, 4/5, "PROFITABLE"⟩

/-- A LONG trade entered at minute 0 at price 100 with target 101. -/
def c1_trade : Trade := ⟨"LONG", 0, 100, 101⟩

/-- A forward path all inside the ten-minute window: the first bar's high
(100.5) misses the target, the second bar's high (102) crosses it. -/
def c1_bars : List Bar :=
  [⟨2, 100, 201/2, 999/10, 501/5⟩, ⟨5, 100, 102, 99, 1013/10⟩, ⟨8, 100, 103, 99, 507/5⟩]

/-- `pyabs` agrees with the mathematical absolute value. -/
theorem pyabs_eq_abs (a : ℚ) : pyabs a = |a| := by
  unfold pyabs
  rcases lt_or_le a 0 with h | h
  · rw [if_pos h, abs_of_neg h]
  · rw [if_neg (not_lt.mpr h), abs_of_nonneg h]

/-- `pymax` agrees with the mathematical maximum. -/
theorem pymax_eq_max (a b : ℚ) : pymax a b = max a b := by
  unfold pymax
  rcases lt_or_le a b with h | h
  · rw [if_pos h, max_eq_right (le_of_lt h)]
  · rw [if_neg (not_lt.mpr h), max_eq_left h]

/-- C5: `determine_trade_direction` returns LONG iff the PSC ratio is at
least the LONG threshold 1.25 (the tiered checks at 2.0 and 1.5 also
return LONG, so they never change the output), SHORT iff the ratio is
below 1.25 and at most the SHORT threshold 0.9, and NEUTRAL otherwise;
both boundaries are inclusive. The embedding is a pure function of its
arguments, so the classifier has no side effects. -/
theorem C5_direction_classifier (psc_ratio price_momentum volatility : ℚ) :
    (determine_trade_direction psc_ratio price_momentum volatility = "LONG"
      ↔ psc_ratio ≥ long_ratio_threshold)
  ∧ (determine_trade_direction psc_ratio price_momentum volatility = "SHORT"
      ↔ psc_ratio < long_ratio_threshold ∧ psc_ratio ≤ short_ratio_threshold)
  ∧ (determine_trade_direction psc_ratio price_momentum volatility = "NEUTRAL"
      ↔ short_ratio_threshold < psc_ratio ∧ psc_ratio < long_ratio_threshold) := by
  unfold determine_trade_direction long_ratio_threshold short_ratio_threshold
    short_strong_threshold
  refine ⟨?_, ?_, ?_⟩ <;>
    split_ifs with h1 h2 h3 h4 h5 <;>
    simp <;>
    first
      | linarith
      | (constructor <;> linarith)
      | (rintro ⟨ha, hb⟩; linarith)
      | (intro ha; linarith)

/-- C6: for every positive entry price, every confidence in [0,1] and
every value the bounded uniform draw may produce, the sampled target
percentage lies in the band the claim names for that confidence tier and
is strictly above the 0.001 break-even percentage, and the returned
target price is `entry * (1 + pct)` for LONG and `entry * (1 - pct)` for
SHORT. -/
theorem C6_target_price_bands (entry_price confidence : ℚ) (draw : ℚ → ℚ → ℚ)
    (hentry : 0 < entry_price) (hc0 : 0 ≤ confidence) (hc1 : confidence ≤ 1)
    (hdraw : ∀ lo hi, lo < hi → lo ≤ draw lo hi ∧ draw lo hi < hi) :
    break_even_pct < sampled_target_pct confidence draw
  ∧ (4/5 ≤ confidence →
      3/2000 ≤ sampled_target_pct confidence draw
        ∧ sampled_target_pct confidence draw ≤ 1/500)
  ∧ (3/5 ≤ confidence → confidence < 4/5 →
      13/10000 ≤ sampled_target_pct confidence draw
        ∧ sampled_target_pct confidence draw ≤ 3/2000)
  ∧ (confidence < 3/5 →
      3/2500 ≤ sampled_target_pct confidence draw
        ∧ sampled_target_pct confidence draw ≤ 13/10000)
  ∧ calculate_target_price entry_price "LONG" confidence draw
      = entry_price * (1 + sampled_target_pct confidence draw)
  ∧ calculate_target_price entry_price "SHORT" confidence draw
      = entry_price * (1 - sampled_target_pct confidence draw) := by
  have h1 := hdraw (3/2000) (1/500) (by norm_num)
  have h2 := hdraw (13/10000) (3/2000) (by norm_num)
  have h3 := hdraw (3/2500) (13/10000) (by norm_num)
  have hL : calculate_target_price entry_price "LONG" confidence draw
      = entry_price * (1 + sampled_target_pct confidence draw) := by
    simp [calculate_target_price]
  have hS : calculate_target_price entry_price "SHORT" confidence draw
      = entry_price * (1 - sampled_target_pct confidence draw) := by
    simp [calculate_target_price]
  have hb1 : break_even_pct < sampled_target_pct confidence draw := by
    unfold sampled_target_pct break_even_pct
    split_ifs <;> linarith [h1.1, h2.1, h3.1]
  have hb2 : 4/5 ≤ confidence →
      3/2000 ≤ sampled_target_pct confidence draw
        ∧ sampled_target_pct confidence draw ≤ 1/500 := by
    intro hx
    unfold sampled_target_pct
    rw [if_pos hx]
    exact ⟨h1.1, le_of_lt h1.2⟩
  have hb3 : 3/5 ≤ confidence → confidence < 4/5 →
      13/10000 ≤ sampled_target_pct confidence draw
        ∧ sampled_target_pct confidence draw ≤ 3/2000 := by
    intro hx hy
    unfold sampled_target_pct
    rw [if_neg (not_le.mpr hy), if_pos hx]
    exact ⟨h2.1, le_of_lt h2.2⟩
  have hb4 : confidence < 3/5 →
      3/2500 ≤ sampled_target_pct confidence draw
        ∧ sampled_target_pct confidence draw ≤ 13/10000 := by
    intro hx
    unfold sampled_target_pct
    rw [if_neg (not_le.mpr (by linarith)), if_neg (not_le.mpr hx)]
    exact ⟨h3.1, le_of_lt h3.2⟩
  exact ⟨hb1, hb2, hb3, hb4, hL, hS⟩

/-- C4: when the price path restricted to the ten-minute position window
is empty, `evaluate_trade_outcome` reports status NO_DATA with zero
profit, no target hit, zero duration, and an unset success flag — the
absence of data is classified neither as a loss nor as a success. -/
theorem C4_empty_window_no_data (trade : Trade) (price_data : List Bar)
    (h : price_data.filter (in_window trade) = []) :
    (evaluate_trade_outcome trade price_data).status = "NO_DATA"
  ∧ (evaluate_trade_outcome trade price_data).profit_pct = 0
  ∧ (evaluate_trade_outcome trade price_data).hit_target = false
  ∧ (evaluate_trade_outcome trade price_data).duration_minutes = 0
  ∧ (evaluate_trade_outcome trade price_data).success = none := by
  unfold evaluate_trade_outcome
  simp only [h]
  simp

/-- Witness for C4 at a concrete input: one bar at minute 50 lies outside
the window of a trade entered at minute 0, so the restriction is empty
and the evaluator reports NO_DATA. -/
theorem C4_witness :
    (([⟨50, 1, 1, 1, 1⟩] : List Bar).filter (in_window ⟨"LONG", 0, 100, 101⟩) = [])
  ∧ ((evaluate_trade_outcome ⟨"LONG", 0, 100, 101⟩ [⟨50, 1, 1, 1, 1⟩]).status = "NO_DATA"
      ∧ (evaluate_trade_outcome ⟨"LONG", 0, 100, 101⟩ [⟨50, 1, 1, 1, 1⟩]).profit_pct = 0
      ∧ (evaluate_trade_outcome ⟨"LONG", 0, 100, 101⟩ [⟨50, 1, 1, 1, 1⟩]).hit_target = false
      ∧ (evaluate_trade_outcome ⟨"LONG", 0, 100, 101⟩ [⟨50, 1, 1, 1, 1⟩]).duration_minutes = 0
      ∧ (evaluate_trade_outcome ⟨"LONG", 0, 100, 101⟩ [⟨50, 1, 1, 1, 1⟩]).success = none) :=
  ⟨by decide, C4_empty_window_no_data ⟨"LONG", 0, 100, 101⟩ [⟨50, 1, 1, 1, 1⟩] (by decide)⟩

/-- Witness for C6 at entry price 100 and confidence 0.9 with the
midpoint draw. -/
theorem C6_witness :
    ((0:ℚ) < 100 ∧ (0:ℚ) ≤ 9/10 ∧ (9/10:ℚ) ≤ 1
      ∧ ∀ lo hi : ℚ, lo < hi → lo ≤ c6_draw lo hi ∧ c6_draw lo hi < hi)
  ∧ (break_even_pct < sampled_target_pct (9/10) c6_draw
      ∧ (4/5 ≤ (9/10:ℚ) →
          3/2000 ≤ sampled_target_pct (9/10) c6_draw
            ∧ sampled_target_pct (9/10) c6_draw ≤ 1/500)
      ∧ (3/5 ≤ (9/10:ℚ) → (9/10:ℚ) < 4/5 →
          13/10000 ≤ sampled_target_pct (9/10) c6_draw
            ∧ sampled_target_pct (9/10) c6_draw ≤ 3/2000)
      ∧ ((9/10:ℚ) < 3/5 →
          3/2500 ≤ sampled_target_pct (9/10) c6_draw
            ∧ sampled_target_pct (9/10) c6_draw ≤ 13/10000)
      ∧ calculate_target_price 100 "LONG" (9/10) c6_draw
          = 100 * (1 + sampled_target_pct (9/10) c6_draw)
      ∧ calculate_target_price 100 "SHORT" (9/10) c6_draw
          = 100 * (1 - sampled_target_pct (9/10) c6_draw)) :=
  ⟨⟨by norm_num, by norm_num, by norm_num,
    fun lo hi h => ⟨show lo ≤ (lo + hi) / 2 by linarith, show (lo + hi) / 2 < hi by linarith⟩⟩,
   C6_target_price_bands 100 (9/10) c6_draw (by norm_num) (by norm_num) (by norm_num)
     (fun lo hi h =>
       ⟨show lo ≤ (lo + hi) / 2 by linarith, show (lo + hi) / 2 < hi by linarith⟩)⟩

/-- Counterexample to C2: in the live path
(`validate_trade_at_period`), a profit percentage exactly equal to the
minimum-profit threshold 0.0012 yields success = True, because the source
compares with `>=` there, not the strict `>` of the historical path. -/
theorem C2_counterexample :
    validate_trade_at_period c2_trade_live ⟨"5min", 5⟩ (some 10012) = some c2_row
  ∧ c2_row.actual_profit_pct = thr_min_profit
  ∧ c2_row.success = true := by
  refine ⟨?_, rfl, rfl⟩
  norm_num [validate_trade_at_period, c2_trade_live, c2_row, pydiv, pyabs, pymax,
    categorize_profit, thr_min_profit, thr_break_even, thr_good_profit, thr_excellent,
    Option.bind, decide_eq_true_eq, decide_eq_false_iff_not]

/-- The success flag written by the COMPLETED path of
`evaluate_trade_outcome` is the strict comparison of the realized profit
with `min_profit_pct`. -/
theorem mkCompleted_success_iff (trade : Trade) (ep : ℚ) (et : ℤ) (hit : Bool) (s : Bool)
    (h : (mkCompleted trade ep et hit).success = some s) :
    s = true ↔ min_profit_pct < (mkCompleted trade ep et hit).profit_pct := by
  unfold mkCompleted at h ⊢
  simp at h ⊢
  rw [← h]
  simp [decide_eq_true_iff]

/-- C2 (amended): the historical path sets success iff the profit
percentage is strictly greater than 0.0012 (equality gives False), while
the live path sets success iff the profit percentage is greater than or
equal to 0.0012 (equality gives True). -/
theorem C2_success_comparisons (trade : Trade) (price_data : List Bar)
    (pt : PaperTrade) (p : Period) (fetched : Option ℚ) :
    (∀ s, (evaluate_trade_outcome trade price_data).success = some s →
      (s = true ↔ min_profit_pct < (evaluate_trade_outcome trade price_data).profit_pct))
  ∧ (∀ r, validate_trade_at_period pt p fetched = some r →
      (r.success = true ↔ thr_min_profit ≤ r.actual_profit_pct)) := by
  constructor
  · intro s hs
    unfold evaluate_trade_outcome at hs ⊢
    by_cases hemp : price_data.filter (in_window trade) = []
    · rw [dif_pos hemp] at hs
      simp at hs
    · rw [dif_neg hemp] at hs ⊢
      cases hfind : (price_data.filter (in_window trade)).find? (crosses_target trade) with
      | some b =>
        try rw [hfind] at hs
        exact mkCompleted_success_iff trade trade.target_price b.timestamp true s hs
      | none =>
        try rw [hfind] at hs
        exact mkCompleted_success_iff trade
          ((price_data.filter (in_window trade)).getLast hemp).close_price
          ((price_data.filter (in_window trade)).getLast hemp).timestamp false s hs
  · intro r hr
    unfold validate_trade_at_period at hr
    cases fetched with
    | none => simp at hr
    | some q =>
      simp only [Option.bind_eq_some] at hr
      obtain ⟨apct, hd1, expected, hd2, rel, hd3, hr⟩ := hr
      injection hr with hr
      rw [← hr]
      simp [decide_eq_true_iff]

/-- Witness for C2 (amended): a historical trade whose exit beats the
threshold has success True, and the live row of `C2_counterexample`
satisfies the greater-or-equal characterization. -/
theorem C2_witness :
    ((evaluate_trade_outcome ⟨"LONG", 0, 100, 101⟩ [⟨5, 100, 102, 99, 1013/10⟩]).success
        = some true
      ∧ min_profit_pct
          < (evaluate_trade_outcome ⟨"LONG", 0, 100, 101⟩ [⟨5, 100, 102, 99, 1013/10⟩]).profit_pct)
  ∧ (validate_trade_at_period c2_trade_live ⟨"5min", 5⟩ (some 10012) = some c2_row
      ∧ thr_min_profit ≤ c2_row.actual_profit_pct) := by
  have heval : (evaluate_trade_outcome ⟨"LONG", 0, 100, 101⟩
      [⟨5, 100, 102, 99, 1013/10⟩]).success = some true := by
    norm_num [evaluate_trade_outcome, in_window, crosses_target, mkCompleted,
      min_profit_pct, max_position_minutes, List.filter, List.find?,
      decide_eq_true_eq]
  have hlive : validate_trade_at_period c2_trade_live ⟨"5min", 5⟩ (some 10012)
      = some c2_row := by
    norm_num [validate_trade_at_period, c2_trade_live, c2_row, pydiv, pyabs, pymax,
      categorize_profit, thr_min_profit, thr_break_even, thr_good_profit, thr_excellent,
      Option.bind, decide_eq_true_eq, decide_eq_false_iff_not]
  exact ⟨⟨heval,
    ((C2_success_comparisons ⟨"LONG", 0, 100, 101⟩ [⟨5, 100, 102, 99, 1013/10⟩]
        c2_trade_live ⟨"5min", 5⟩ (some 10012)).1 true heval).mp rfl⟩,
   ⟨hlive,
    ((C2_success_comparisons ⟨"LONG", 0, 100, 101⟩ [⟨5, 100, 102, 99, 1013/10⟩]
        c2_trade_live ⟨"5min", 5⟩ (some 10012)).2 c2_row hlive).mp rfl⟩⟩

/-- C10: `validate_trade_at_period` divides by
`expected_profit = |target - entry| / entry`; when the target equals the
entry price this raises `ZeroDivisionError`, the handler absorbs it, and
no validation row is written at any horizon. Conversely a row is emitted
only if the price fetch succeeded and the target differs from the
entry. -/
theorem C10_degenerate_target (t : PaperTrade) (p : Period) (fetched : Option ℚ) :
    (t.target_price = t.entry_price → validate_trade_at_period t p fetched = none)
  ∧ (∀ r, validate_trade_at_period t p fetched = some r →
      (∃ q, fetched = some q) ∧ t.target_price ≠ t.entry_price) := by
  constructor
  · intro heq
    unfold validate_trade_at_period
    cases fetched with
    | none => rfl
    | some q =>
      by_cases hz : t.entry_price = 0
      · by_cases hdir : t.direction = "LONG" <;> simp [pydiv, hz, hdir]
      · by_cases hdir : t.direction = "LONG" <;> simp [pydiv, pyabs, hz, hdir, heq]
  · intro r hr
    unfold validate_trade_at_period at hr
    cases fetched with
    | none => simp at hr
    | some q =>
      refine ⟨⟨q, rfl⟩, ?_⟩
      intro heq
      by_cases hz : t.entry_price = 0
      · by_cases hdir : t.direction = "LONG" <;> simp [pydiv, hz, hdir] at hr
      · by_cases hdir : t.direction = "LONG" <;> simp [pydiv, pyabs, hz, hdir, heq] at hr

/-- Witness for C10: for a trade with target = entry, the live
validation writes no row even though the price fetch succeeded. -/
theorem C10_witness :
    c10_trade.target_price = c10_trade.entry_price
  ∧ validate_trade_at_period c10_trade ⟨"5min", 5⟩ (some 101) = none :=
  ⟨rfl, (C10_degenerate_target c10_trade ⟨"5min", 5⟩ (some 101)).1 rfl⟩

/-- On the configured periods, Python's `max(..., key=minutes)` picks the
30-minute period. -/
theorem max_validation_period : max_by_minutes validation_periods = ⟨"30min", 30⟩ := by
  decide

/-- Unfolding equation of the load loop: a row whose processing raises
aborts the loop. -/
theorem load_cons_error (ct : ℤ) (row : CsvRow) (rest : List CsvRow)
    (h : parse_row ct row = .error ()) :
    load_active_paper_trades ct (row :: rest) = [] := by
  unfold load_active_paper_trades
  rw [h]

/-- Unfolding equation of the load loop: a row that is silently not
restored leaves the rest of the loop unchanged. -/
theorem load_cons_skip (ct : ℤ) (row : CsvRow) (rest : List CsvRow)
    (h : parse_row ct row = .ok none) :
    load_active_paper_trades ct (row :: rest) = load_active_paper_trades ct rest := by
  conv_lhs => unfold load_active_paper_trades
  rw [h]

/-- Unfolding equation of the load loop: a restored row is appended and
the loop continues. -/
theorem load_cons_keep (ct : ℤ) (row : CsvRow) (rest : List CsvRow) (t : PaperTrade)
    (h : parse_row ct row = .ok (some t)) :
    load_active_paper_trades ct (row :: rest)
      = t :: load_active_paper_trades ct rest := by
  conv_lhs => unfold load_active_paper_trades
  rw [h]

/-- C7: after a `validate_predictions` pass at `current_time`, no trade
whose 30-minute maximum-horizon deadline is at or before `current_time`
remains in the active set; every such trade is marked COMPLETED in the
removal list built during the scan and applied after the iteration —
for every fetch behaviour, including one whose every price fetch fails. -/
theorem C7_max_horizon_removal (current_time : ℤ)
    (fetch : PaperTrade → Period → Option ℚ) (active : List PaperTrade) :
    (∀ u ∈ (validate_predictions current_time fetch active).new_active,
        current_time < u.entry_time + 30)
  ∧ (∀ t ∈ active, t.entry_time + 30 ≤ current_time →
        { t with status := "COMPLETED" }
            ∈ (validate_predictions current_time fetch active).completed
        ∧ t ∉ (validate_predictions current_time fetch active).new_active) := by
  have hva : (validate_predictions current_time fetch active).new_active
      = active.filter fun t => !decide (current_time ≥ t.entry_time + 30) := by
    unfold validate_predictions
    rw [max_validation_period]
  have hvc : (validate_predictions current_time fetch active).completed
      = (active.filter fun t => decide (current_time ≥ t.entry_time + 30)).map
          fun t => { t with status := "COMPLETED" } := by
    unfold validate_predictions
    rw [max_validation_period]
  constructor
  · intro u hu
    rw [hva, List.mem_filter] at hu
    have hcond := hu.2
    simp at hcond
    omega
  · intro t ht hle
    constructor
    · rw [hvc]
      refine List.mem_map.mpr ⟨t, List.mem_filter.mpr ⟨ht, ?_⟩, rfl⟩
      simp
      omega
    · rw [hva]
      intro hmem
      rw [List.mem_filter] at hmem
      have hcond := hmem.2
      simp at hcond
      omega

/-- Witness for C7: at minute 30 the trade entered at minute 0 is marked
COMPLETED and removed even though every price fetch failed. -/
theorem C7_witness :
    c7_trade ∈ [c7_trade]
  ∧ c7_trade.entry_time + 30 ≤ 30
  ∧ ({ c7_trade with status := "COMPLETED" }
        ∈ (validate_predictions 30 (fun _ _ => none) [c7_trade]).completed
      ∧ c7_trade ∉ (validate_predictions 30 (fun _ _ => none) [c7_trade]).new_active) :=
  ⟨List.mem_singleton.mpr rfl, by decide,
   (C7_max_horizon_removal 30 (fun _ _ => none) [c7_trade]).2 c7_trade
     (List.mem_singleton.mpr rfl) (by decide)⟩

/-- C8: on a file of well-formed rows, `load_active_paper_trades`
restores exactly the rows whose status is ACTIVE and whose final
30-minute horizon deadline is still strictly in the future; an expired
entry is never restored. -/
theorem C8_load_restores_iff (current_time : ℤ) (rows : List CsvRow)
    (hwf : ∀ r ∈ rows, r.entry_time ≠ none ∧ r.entry_price ≠ none
        ∧ r.target_price ≠ none ∧ r.confidence ≠ none) :
    load_active_paper_trades current_time rows
      = rows.filterMap (restores_row_spec current_time) := by
  induction rows with
  | nil => rfl
  | cons row rest ih =>
    have hhead := hwf row (List.mem_cons_self row rest)
    have htail : ∀ r ∈ rest, r.entry_time ≠ none ∧ r.entry_price ≠ none
        ∧ r.target_price ≠ none ∧ r.confidence ≠ none :=
      fun r hr => hwf r (List.mem_cons_of_mem row hr)
    obtain ⟨et, het⟩ := Option.ne_none_iff_exists'.mp hhead.1
    obtain ⟨ep, hep⟩ := Option.ne_none_iff_exists'.mp hhead.2.1
    obtain ⟨tp, htp⟩ := Option.ne_none_iff_exists'.mp hhead.2.2.1
    obtain ⟨c, hc⟩ := Option.ne_none_iff_exists'.mp hhead.2.2.2
    by_cases hst : row.status = "ACTIVE"
    · by_cases hwin : current_time < et + 30
      · have hparse : parse_row current_time row
            = .ok (some ⟨row.prediction_id, row.coin, row.direction,
                et, ep, tp, c, "ACTIVE"⟩) := by
          simp [parse_row, het, hep, htp, hc, hst, hwin, max_validation_period]
        have hspec : restores_row_spec current_time row
            = some ⟨row.prediction_id, row.coin, row.direction,
                et, ep, tp, c, "ACTIVE"⟩ := by
          simp [restores_row_spec, het, hep, htp, hc, hst, hwin]
        rw [load_cons_keep current_time row rest _ hparse,
          List.filterMap_cons_some hspec, ih htail]
      · have hparse : parse_row current_time row = .ok none := by
          simp [parse_row, het, hst, hwin, max_validation_period]
        have hspec : restores_row_spec current_time row = none := by
          simp [restores_row_spec, het, hep, htp, hc, hwin]
        rw [load_cons_skip current_time row rest hparse,
          List.filterMap_cons_none hspec, ih htail]
    · have hparse : parse_row current_time row = .ok none := by
        simp [parse_row, hst]
      have hspec : restores_row_spec current_time row = none := by
        simp [restores_row_spec, het, hep, htp, hc, hst]
      rw [load_cons_skip current_time row rest hparse,
        List.filterMap_cons_none hspec, ih htail]

/-- Witness for C8: loading a file with one live and one expired ACTIVE
row at time 5 restores exactly what the spec-side rule restores. -/
theorem C8_witness :
    (∀ r ∈ [c8_row_live, c8_row_expired], r.entry_time ≠ none ∧ r.entry_price ≠ none
        ∧ r.target_price ≠ none ∧ r.confidence ≠ none)
  ∧ load_active_paper_trades 5 [c8_row_live, c8_row_expired]
      = [c8_row_live, c8_row_expired].filterMap (restores_row_spec 5) :=
  ⟨by decide, C8_load_restores_iff 5 [c8_row_live, c8_row_expired] (by decide)⟩

/-- Counterexample to C9: a malformed row does NOT merely get skipped — 
the single `try`/`except` wrapped around the whole row loop of
`load_active_paper_trades` aborts the loop, so the well-formed ACTIVE row
after it (which loads fine on its own) is not restored. -/
theorem C9_counterexample :
    load_active_paper_trades 1 [c9_bad, c9_good] = []
  ∧ load_active_paper_trades 1 [c9_good] = [c9_good_trade] := by
  have hbad : parse_row 1 c9_bad = .error () := by
    simp [parse_row, c9_bad]
  have hgood : parse_row 1 c9_good = .ok (some c9_good_trade) := by
    norm_num [parse_row, c9_good, c9_good_trade, max_validation_period]
  exact ⟨load_cons_error 1 c9_bad [c9_good] hbad,
    by rw [load_cons_keep 1 c9_good [] c9_good_trade hgood]; rfl⟩

/-- C9 (amended): a malformed persisted row does not abort startup (the
exception is caught and logged), and rows before it are restored as
usual, but the loop stops at the malformed row, so the remaining rows of
the file are NOT processed: loading `pre ++ bad :: rest` restores exactly
what loading `pre` alone restores. -/
theorem C9_malformed_row_aborts_loop (current_time : ℤ) (pre rest : List CsvRow)
    (bad : CsvRow)
    (hpre : ∀ r ∈ pre, parse_row current_time r ≠ .error ())
    (hbad : parse_row current_time bad = .error ()) :
    load_active_paper_trades current_time (pre ++ bad :: rest)
      = load_active_paper_trades current_time pre := by
  induction pre with
  | nil => simpa using load_cons_error current_time bad rest hbad
  | cons row pre ih =>
    have hhead := hpre row (List.mem_cons_self row pre)
    have htail : ∀ r ∈ pre, parse_row current_time r ≠ .error () :=
      fun r hr => hpre r (List.mem_cons_of_mem row hr)
    rw [List.cons_append]
    cases hp : parse_row current_time row with
    | error e =>
      cases e
      exact absurd hp hhead
    | ok o =>
      cases o with
      | none =>
        rw [load_cons_skip current_time row (pre ++ bad :: rest) hp,
          load_cons_skip current_time row pre hp]
        exact ih htail
      | some t =>
        rw [load_cons_keep current_time row (pre ++ bad :: rest) t hp,
          load_cons_keep current_time row pre t hp]
        rw [ih htail]

/-- Witness for C9 (amended): with one good row before and one after the
malformed row, loading keeps the first good row and drops the one after
the malformed row. -/
theorem C9_witness :
    (∀ r ∈ [c9_good], parse_row 1 r ≠ Except.error ())
  ∧ parse_row 1 c9_bad = Except.error ()
  ∧ load_active_paper_trades 1 ([c9_good] ++ c9_bad :: [c9_good])
      = load_active_paper_trades 1 [c9_good] := by
  have hgood : parse_row 1 c9_good = .ok (some c9_good_trade) := by
    norm_num [parse_row, c9_good, c9_good_trade, max_validation_period]
  have hbad : parse_row 1 c9_bad = .error () := by
    simp [parse_row, c9_bad]
  have hpre : ∀ r ∈ [c9_good], parse_row 1 r ≠ Except.error () := by
    intro r hr
    rw [List.mem_singleton] at hr
    subst hr
    rw [hgood]
    simp
  exact ⟨hpre, hbad, C9_malformed_row_aborts_loop 1 [c9_good] [c9_good] c9_bad hpre hbad⟩

/-- Any row written by `validate_trade_at_period` carries the name of the
period it was validated at. -/
theorem vtp_period_name (t : PaperTrade) (p : Period) (fp : Option ℚ) (r : ValidationRow)
    (h : validate_trade_at_period t p fp = some r) : r.period_name = p.period_label := by
  unfold validate_trade_at_period at h
  cases fp with
  | none => simp at h
  | some q =>
    simp only [Option.bind_eq_some] at h
    obtain ⟨apct, h1, expected, h2, rel, h3, h⟩ := h
    injection h with h
    rw [← h]

/-- Rows produced by filter-mapping over periods with pairwise distinct
labels have pairwise distinct period names, whenever the producing
function stamps each row with its period's label. -/
theorem filterMap_pairwise_label (g : Period → Option ValidationRow)
    (hg : ∀ p r, g p = some r → r.period_name = p.period_label) :
    ∀ l : List Period, (l.map Period.period_label).Pairwise (fun a b => a ≠ b) →
      (l.filterMap g).Pairwise (fun a b => a.period_name ≠ b.period_name) := by
  intro l
  induction l with
  | nil => intro _; simp
  | cons p l ih =>
    intro hl
    rw [List.map_cons, List.pairwise_cons] at hl
    cases hgp : g p with
    | none =>
      rw [List.filterMap_cons_none hgp]
      exact ih hl.2
    | some r =>
      rw [List.filterMap_cons_some hgp, List.pairwise_cons]
      refine ⟨?_, ih hl.2⟩
      intro y hy
      obtain ⟨q, hq, hgq⟩ := List.mem_filterMap.mp hy
      rw [hg p r hgp, hg q y hgq]
      exact hl.1 q.period_label (List.mem_map.mpr ⟨q, hq, rfl⟩)

/-- Within one pass, the rows of a single trade carry pairwise distinct
period names: at most one row per (trade, horizon). -/
theorem rows_for_trade_pairwise (current_time : ℤ)
    (fetch : PaperTrade → Period → Option ℚ) (t : PaperTrade) :
    (rows_for_trade current_time fetch t).Pairwise
      (fun a b => a.period_name ≠ b.period_name) := by
  unfold rows_for_trade
  refine filterMap_pairwise_label _ ?_ validation_periods ?_
  · intro p r h
    by_cases hc : current_time ≥ t.entry_time + p.minutes
    · rw [if_pos hc] at h
      exact vtp_period_name t p (fetch t p) r h
    · rw [if_neg hc] at h
      simp at h
  · simp [validation_periods, List.pairwise_cons]

/-- The rows of a pass over a single-trade active set are that trade's
rows. -/
theorem vp_rows_singleton (current_time : ℤ)
    (fetch : PaperTrade → Period → Option ℚ) (t : PaperTrade) :
    (validate_predictions current_time fetch [t]).rows
      = rows_for_trade current_time fetch t := by
  unfold validate_predictions
  simp

/-- A trade whose 30-minute deadline has not yet passed survives a pass
over a single-trade active set. -/
theorem vp_new_active_keep (current_time : ℤ)
    (fetch : PaperTrade → Period → Option ℚ) (t : PaperTrade)
    (h : current_time < t.entry_time + 30) :
    (validate_predictions current_time fetch [t]).new_active = [t] := by
  unfold validate_predictions
  rw [max_validation_period]
  simp
  omega

/-- If the 5-minute deadline has passed and the 5-minute validation
produces a row, that row is among the trade's rows for the pass. -/
theorem rows_for_trade_mem_5min (current_time : ℤ)
    (fetch : PaperTrade → Period → Option ℚ) (t : PaperTrade) (r : ValidationRow)
    (h5 : t.entry_time + 5 ≤ current_time)
    (hr : validate_trade_at_period t ⟨"5min", 5⟩ (fetch t ⟨"5min", 5⟩) = some r) :
    r ∈ rows_for_trade current_time fetch t := by
  unfold rows_for_trade
  refine List.mem_filterMap.mpr ⟨⟨"5min", 5⟩, ?_, ?_⟩
  · simp [validation_periods]
  · rw [if_pos (show current_time ≥ t.entry_time + (5:ℤ) by omega)]
    exact hr

/-- Counterexample to C3: the 5-minute outcome row for `c3_trade` is
emitted by the pass at minute 5 AND again by the next pass at minute 10,
because `validate_predictions` keeps no record of horizons already
validated — the same (prediction, horizon) pair gets a second row. -/
theorem C3_counterexample :
    c3_row ∈ (validate_predictions 5 c3_fetch [c3_trade]).rows
  ∧ c3_row ∈ (validate_predictions 10 c3_fetch
      (validate_predictions 5 c3_fetch [c3_trade]).new_active).rows
  ∧ c3_row.period_name = "5min"
  ∧ c3_row.prediction_id = c3_trade.prediction_id := by
  have hvtp : validate_trade_at_period c3_trade ⟨"5min", 5⟩
      (c3_fetch c3_trade ⟨"5min", 5⟩) = some c3_row := by
    norm_num [validate_trade_at_period, c3_trade, c3_fetch, c3_row, pydiv, pyabs, pymax,
      categorize_profit, thr_min_profit, thr_break_even, thr_good_profit, thr_excellent,
      Option.bind, decide_eq_true_eq, decide_eq_false_iff_not]
  have hna : (validate_predictions 5 c3_fetch [c3_trade]).new_active = [c3_trade] :=
    vp_new_active_keep 5 c3_fetch c3_trade (by decide)
  refine ⟨?_, ?_, rfl, rfl⟩
  · rw [vp_rows_singleton]
    exact rows_for_trade_mem_5min 5 c3_fetch c3_trade c3_row (by decide) hvtp
  · rw [hna, vp_rows_singleton]
    exact rows_for_trade_mem_5min 10 c3_fetch c3_trade c3_row (by decide) hvtp

/-- C3 (amended): within a single `validate_predictions` pass a trade
yields at most one row per horizon (its rows carry pairwise distinct
period names), but nothing records horizons already validated: a horizon
row emitted on an earlier pass is emitted again on any later pass that
happens while the trade is still in the active set, i.e. before its
30-minute deadline passes. -/
theorem C3_rows_per_pass_and_reemission (fetch : PaperTrade → Period → Option ℚ)
    (t : PaperTrade) (T1 T2 : ℤ) (r : ValidationRow)
    (h5 : t.entry_time + 5 ≤ T1) (h30 : T1 < t.entry_time + 30) (h12 : T1 ≤ T2)
    (hr : validate_trade_at_period t ⟨"5min", 5⟩ (fetch t ⟨"5min", 5⟩) = some r) :
    (validate_predictions T1 fetch [t]).rows.Pairwise
        (fun a b => a.period_name ≠ b.period_name)
  ∧ r ∈ (validate_predictions T1 fetch [t]).rows
  ∧ t ∈ (validate_predictions T1 fetch [t]).new_active
  ∧ r ∈ (validate_predictions T2 fetch
        (validate_predictions T1 fetch [t]).new_active).rows := by
  have hna := vp_new_active_keep T1 fetch t h30
  refine ⟨?_, ?_, ?_, ?_⟩
  · rw [vp_rows_singleton]
    exact rows_for_trade_pairwise T1 fetch t
  · rw [vp_rows_singleton]
    exact rows_for_trade_mem_5min T1 fetch t r h5 hr
  · rw [hna]
    exact List.mem_singleton.mpr rfl
  · rw [hna, vp_rows_singleton]
    exact rows_for_trade_mem_5min T2 fetch t r (by omega) hr

/-- Witness for C3 (amended) with the concrete scenario of
`C3_counterexample`: passes at minutes 5 and 10. -/
theorem C3_witness :
    (c3_trade.entry_time + 5 ≤ 5 ∧ (5:ℤ) < c3_trade.entry_time + 30 ∧ (5:ℤ) ≤ 10
      ∧ validate_trade_at_period c3_trade ⟨"5min", 5⟩ (c3_fetch c3_trade ⟨"5min", 5⟩)
          = some c3_row)
  ∧ ((validate_predictions 5 c3_fetch [c3_trade]).rows.Pairwise
        (fun a b => a.period_name ≠ b.period_name)
      ∧ c3_row ∈ (validate_predictions 5 c3_fetch [c3_trade]).rows
      ∧ c3_trade ∈ (validate_predictions 5 c3_fetch [c3_trade]).new_active
      ∧ c3_row ∈ (validate_predictions 10 c3_fetch
            (validate_predictions 5 c3_fetch [c3_trade]).new_active).rows) := by
  have hvtp : validate_trade_at_period c3_trade ⟨"5min", 5⟩
      (c3_fetch c3_trade ⟨"5min", 5⟩) = some c3_row := by
    norm_num [validate_trade_at_period, c3_trade, c3_fetch, c3_row, pydiv, pyabs, pymax,
      categorize_profit, thr_min_profit, thr_break_even, thr_good_profit, thr_excellent,
      Option.bind, decide_eq_true_eq, decide_eq_false_iff_not]
  exact ⟨⟨by decide, by decide, by decide, hvtp⟩,
    C3_rows_per_pass_and_reemission c3_fetch c3_trade 5 10 c3_row
      (by decide) (by decide) (by decide) hvtp⟩

/-- `List.find?` returns the first element satisfying the predicate: it
sits at an index before which every element fails the predicate. -/
theorem find?_first_index {α : Type} (p : α → Bool) :
    ∀ (l : List α) (b : α), l.find? p = some b →
      ∃ i : Fin l.length, l.get i = b ∧
        ∀ j : Fin l.length, (j : ℕ) < (i : ℕ) → p (l.get j) = false := by
  intro l
  induction l with
  | nil =>
    intro b h
    simp at h
  | cons a t ih =>
    intro b h
    by_cases hp : p a = true
    · rw [List.find?_cons_of_pos t hp] at h
      injection h with h
      subst h
      exact ⟨⟨0, by simp⟩, rfl, fun j hj => absurd hj (Nat.not_lt_zero _)⟩
    · rw [List.find?_cons_of_neg t hp] at h
      obtain ⟨i, hget, hbefore⟩ := ih b h
      have hpf : p a = false := by simpa using hp
      refine ⟨⟨i.val + 1, by have hlt := i.isLt; simp only [List.length_cons]; omega⟩, ?_, ?_⟩
      · simpa using hget
      · intro j hj
        rcases j with ⟨jv, hjlt⟩
        cases jv with
        | zero => simpa using hpf
        | succ k =>
          simp at hj hjlt
          have := hbefore ⟨k, by omega⟩ hj
          simpa using this

/-- C1: on a non-empty restricted path, `evaluate_trade_outcome` reports
a hit with exit price exactly the target and exit time the timestamp of
the first bar whose favorable extreme (high for LONG, low for SHORT)
crosses the target, whenever some restricted bar crosses; and otherwise
no hit, with exit price the last restricted bar's close and exit time
the last restricted bar's timestamp. -/
theorem C1_outcome_evaluator (trade : Trade) (price_data : List Bar)
    (hne : price_data.filter (in_window trade) ≠ []) :
    ((∃ b ∈ price_data.filter (in_window trade), crosses_target trade b = true) →
      (evaluate_trade_outcome trade price_data).hit_target = true
      ∧ (evaluate_trade_outcome trade price_data).exit_price = trade.target_price
      ∧ ∃ i : Fin (price_data.filter (in_window trade)).length,
          crosses_target trade ((price_data.filter (in_window trade)).get i) = true
          ∧ (∀ j : Fin (price_data.filter (in_window trade)).length,
              (j : ℕ) < (i : ℕ) →
              crosses_target trade ((price_data.filter (in_window trade)).get j) = false)
          ∧ (evaluate_trade_outcome trade price_data).exit_time
              = ((price_data.filter (in_window trade)).get i).timestamp)
  ∧ ((∀ b ∈ price_data.filter (in_window trade), crosses_target trade b = false) →
      (evaluate_trade_outcome trade price_data).hit_target = false
      ∧ (evaluate_trade_outcome trade price_data).exit_price
          = ((price_data.filter (in_window trade)).getLast hne).close_price
      ∧ (evaluate_trade_outcome trade price_data).exit_time
          = ((price_data.filter (in_window trade)).getLast hne).timestamp) := by
  constructor
  · rintro ⟨b, hb, hcross⟩
    have hsome : ((price_data.filter (in_window trade)).find? (crosses_target trade)).isSome :=
      List.find?_isSome.mpr ⟨b, hb, hcross⟩
    obtain ⟨c, hc⟩ := Option.isSome_iff_exists.mp hsome
    obtain ⟨i, hget, hbefore⟩ := find?_first_index (crosses_target trade) _ c hc
    have heval : evaluate_trade_outcome trade price_data
        = mkCompleted trade trade.target_price c.timestamp true := by
      simp only [evaluate_trade_outcome]
      rw [dif_neg hne, hc]
    refine ⟨by rw [heval]; rfl, by rw [heval]; rfl, i, ?_, hbefore, ?_⟩
    · rw [hget]
      exact List.find?_some hc
    · rw [heval, hget]
      rfl
  · intro hall
    have hnone : (price_data.filter (in_window trade)).find? (crosses_target trade)
        = none :=
      List.find?_eq_none.mpr fun x hx => by rw [hall x hx]; simp
    have heval : evaluate_trade_outcome trade price_data
        = mkCompleted trade
            ((price_data.filter (in_window trade)).getLast hne).close_price
            ((price_data.filter (in_window trade)).getLast hne).timestamp false := by
      simp only [evaluate_trade_outcome]
      rw [dif_neg hne, hnone]
    exact ⟨by rw [heval]; rfl, by rw [heval]; rfl, by rw [heval]; rfl⟩

/-- Witness for C1 on the hit branch: the evaluator fills at the target
with exit time 5, the timestamp of the first crossing bar. -/
theorem C1_witness :
    (c1_bars.filter (in_window c1_trade) ≠ []
      ∧ ∃ b ∈ c1_bars.filter (in_window c1_trade), crosses_target c1_trade b = true)
  ∧ ((evaluate_trade_outcome c1_trade c1_bars).hit_target = true
      ∧ (evaluate_trade_outcome c1_trade c1_bars).exit_price = c1_trade.target_price
      ∧ ∃ i : Fin (c1_bars.filter (in_window c1_trade)).length,
          crosses_target c1_trade ((c1_bars.filter (in_window c1_trade)).get i) = true
          ∧ (∀ j : Fin (c1_bars.filter (in_window c1_trade)).length,
              (j : ℕ) < (i : ℕ) →
              crosses_target c1_trade ((c1_bars.filter (in_window c1_trade)).get j) = false)
          ∧ (evaluate_trade_outcome c1_trade c1_bars).exit_time
              = ((c1_bars.filter (in_window c1_trade)).get i).timestamp) := by
  have hne : c1_bars.filter (in_window c1_trade) ≠ [] := by decide
  have hex : ∃ b ∈ c1_bars.filter (in_window c1_trade),
      crosses_target c1_trade b = true := by
    refine ⟨⟨5, 100, 102, 99, 1013/10⟩, ?_, ?_⟩
    · simp [c1_bars, c1_trade, in_window, max_position_minutes, List.filter]
    · norm_num [crosses_target, c1_trade, decide_eq_true_eq]
  exact ⟨⟨hne, hex⟩, (C1_outcome_evaluator c1_trade c1_bars hne).1 hex⟩
